import Mathlib

/-!
Verification of the progressive directory-scan channel of Image-MetaHub.

The source fragment consists of three Playwright verification scripts.  The
algorithmic content embedded here is:

* the mocked `streamDirectoryFiles` platform API injected by
  `jules-scratch/verification/verify_progressive_loading.py` (two batches of
  50 file entries scheduled at 100ms and 300ms, a completion with total 100
  at 500ms, an immediately resolved `{ success: true }`);
* the DOM event-bus semantics (`addEventListener` / `removeEventListener` /
  `dispatchEvent`) through which `onDirectoryScanBatch`,
  `onDirectoryScanComplete` and `onDirectoryScanError` route events;
* the `try/except/finally` control flow of the two hotkey verification
  scripts;
* spec-modelled definitions for the host-side scanner, the dispatcher
  registry and the front-end consumer, which the spec describes but which are
  not part of the source fragment.
-/

namespace ImageMetaHub

/-- A file entry as produced by the mocked `streamDirectoryFiles`:
`{ name, lastModified }` (verify_progressive_loading.py, lines 22-23). -/
structure FileEntry where
  name : String
  lastModified : Nat
deriving Repr, DecidableEq

/-- Events of the progressive directory-scan channel, as dispatched on the
window event bus: `directory-scan-batch`, `directory-scan-complete`, and the
(implied, symmetrical) `directory-scan-error`. -/
inductive ScanEvent where
  | batch (directoryId : String) (files : List FileEntry)
  | complete (directoryId : String) (total : Nat)
  | scanError (directoryId : String) (reason : String)
deriving Repr, DecidableEq

/-- `true` exactly on batch events. -/
def isBatch : ScanEvent → Bool
  | .batch _ _ => true
  | _ => false

/-- `true` exactly on terminal events (completion or error). -/
def isTerminal : ScanEvent → Bool
  | .batch _ _ => false
  | .complete _ _ => true
  | .scanError _ _ => true

/-- The directoryId carried by an event. -/
def eventDirectoryId : ScanEvent → String
  | .batch d _ => d
  | .complete d _ => d
  | .scanError d _ => d

/-- Number of file entries carried by an event (0 for non-batch events). -/
def batchCount : ScanEvent → Nat
  | .batch _ files => files.length
  | _ => 0

/-- The file names carried by a batch event ([] for non-batch events). -/
def batchNames : ScanEvent → List String
  | .batch _ files => files.map FileEntry.name
  | _ => []

/-- The total carried by a completion event. -/
def completionTotal : ScanEvent → Option Nat
  | .complete _ total => some total
  | _ => none

/-- The file list built by
`Array.from({ length: count }, (_, i) => ({ name: file(start+i).png,
lastModified: Date.now() }))` in the mock (verify_progressive_loading.py,
lines 22-23).  `ts i` models the value `Date.now()` returns for the i-th
entry, since each entry evaluates `Date.now()` separately. -/
def mockFiles (start count : Nat) (ts : Nat → Nat) : List FileEntry :=
  (List.range count).map fun i =>
    { name := "file" ++ toString (start + i) ++ ".png", lastModified := ts i }

/-- The mocked `streamDirectoryFiles` of verify_progressive_loading.py
(lines 20-38): given the request's `directoryId`, it schedules (via
`setTimeout`) a batch of `file1..file50` at delay 100, a batch of
`file51..file100` at delay 300 and a completion with `total = 100` at delay
500, and immediately resolves `{ success: true }`.  The result is the list of
`(delay, event)` pairs together with the resolved success flag; `ts1`/`ts2`
model the `Date.now()` clocks of the two file arrays. -/
def streamDirectoryFiles (directoryId : String) (ts1 ts2 : Nat → Nat) :
    List (Nat × ScanEvent) × Bool :=
  let files1 := mockFiles 1 50 ts1
  let files2 := mockFiles 51 50 ts2
  ([(100, ScanEvent.batch directoryId files1),
    (300, ScanEvent.batch directoryId files2),
    (500, ScanEvent.complete directoryId 100)], true)

/-- The events of the mocked scan in delivery order.  The `setTimeout` delays
100 < 300 < 500 are strictly increasing, so delivery order coincides with the
order in which the timeouts are scheduled. -/
def scanTrace (directoryId : String) (ts1 ts2 : Nat → Nat) : List ScanEvent :=
  (streamDirectoryFiles directoryId ts1 ts2).1.map Prod.snd

/-- Erases from an event exactly the parts of the mock's output that depend on
its input or on the clock: the echoed `directoryId` and each entry's
`lastModified` timestamp.  Everything that survives this erasure (file names,
counts, event kinds and order) is claimed to be input-independent. -/
def eraseVariation : ScanEvent → ScanEvent
  | .batch _ files => .batch "" (files.map fun f => { f with lastModified := 0 })
  | .complete _ t => .complete "" t
  | .scanError _ r => .scanError "" r

/-- State of the front-end consumer for one directoryId:
`Scanning` (accumulating batches), `Loaded` or `Errored` (terminal). -/
inductive ConsumerState where
  | scanning (acc : List FileEntry)
  | loaded (acc : List FileEntry) (total : Nat)
  | errored (acc : List FileEntry) (reason : String)
deriving Repr, DecidableEq

/-- Modelled from the spec: the front-end Consumer/Accumulator (spec §4.3) is
not part of the source fragment (only the mocked platform API that feeds it
is).  On each batch it appends `files` to its accumulated sequence; on
completion it transitions to the `Loaded` terminal state; on error to
`Errored`; events arriving in a terminal state are ignored. -/
def consumerStep : ConsumerState → ScanEvent → ConsumerState
  | .scanning acc, .batch _ files => .scanning (acc ++ files)
  | .scanning acc, .complete _ total => .loaded acc total
  | .scanning acc, .scanError _ r => .errored acc r
  | s, _ => s

/-- Runs the consumer from the initial `Scanning` state (entered on request
submission) over a delivered event sequence. -/
def consumerRun (events : List ScanEvent) : ConsumerState :=
  events.foldl consumerStep (.scanning [])

/-- The consumer's accumulated file count in any state. -/
def accCount : ConsumerState → Nat
  | .scanning acc => acc.length
  | .loaded acc _ => acc.length
  | .errored acc _ => acc.length

/-- Modelled from the spec: the real dispatcher behind `subscribeToBatches`,
`subscribeToCompletion` and `subscribeToErrors` (spec §4.2) is not part of the
source fragment — the host/preload side is missing, and the mock's
`onDirectoryScanError` is an explicit test no-op.  Per spec §9 it is an
explicit observer registry keyed by subscription handle, with removal by
handle.  One registry (a list of handles, in registration order) per event
channel. -/
structure Dispatcher where
  batchSubs : List Nat
  completionSubs : List Nat
  errorSubs : List Nat
deriving Repr, DecidableEq

/-- Registers a batch handler; the returned unsubscribe closure is
`fun d => unsubscribeBatches d h` for the fresh handle `h`. -/
def subscribeToBatches (d : Dispatcher) (h : Nat) : Dispatcher :=
  { d with batchSubs := d.batchSubs ++ [h] }

/-- Removes a batch handler by handle; removing an absent handle is a no-op
(a total function: it cannot throw). -/
def unsubscribeBatches (d : Dispatcher) (h : Nat) : Dispatcher :=
  { d with batchSubs := d.batchSubs.filter (· != h) }

/-- Registers a completion handler (see `subscribeToBatches`). -/
def subscribeToCompletion (d : Dispatcher) (h : Nat) : Dispatcher :=
  { d with completionSubs := d.completionSubs ++ [h] }

/-- Removes a completion handler by handle; total, no-op when absent. -/
def unsubscribeCompletion (d : Dispatcher) (h : Nat) : Dispatcher :=
  { d with completionSubs := d.completionSubs.filter (· != h) }

/-- Registers an error handler (see `subscribeToBatches`). -/
def subscribeToErrors (d : Dispatcher) (h : Nat) : Dispatcher :=
  { d with errorSubs := d.errorSubs ++ [h] }

/-- Removes an error handler by handle; total, no-op when absent. -/
def unsubscribeErrors (d : Dispatcher) (h : Nat) : Dispatcher :=
  { d with errorSubs := d.errorSubs.filter (· != h) }

/-- The handles that receive the next dispatched batch event: exactly the
currently registered batch subscribers. -/
def dispatchBatchTo (d : Dispatcher) : List Nat := d.batchSubs

/-- The handles that receive the next dispatched completion event. -/
def dispatchCompletionTo (d : Dispatcher) : List Nat := d.completionSubs

/-- The handles that receive the next dispatched error event. -/
def dispatchErrorTo (d : Dispatcher) : List Nat := d.errorSubs

/-- An operation on the window event bus, as used by the source:
`onDirectoryScanBatch` and `onDirectoryScanComplete` call
`window.addEventListener` (subscribe) and return a closure calling
`window.removeEventListener` (unsubscribe); the mock emits events with
`window.dispatchEvent` (emit). -/
inductive BusOp where
  | subscribe (h : Nat)
  | unsubscribe (h : Nat)
  | emit (e : ScanEvent)
deriving Repr, DecidableEq

/-- Runs a sequence of bus operations against a registry of listener handles,
returning the deliveries `(handle, event)` in order: an emitted event is
delivered to exactly the handles registered at emission time
(`window.dispatchEvent` semantics). -/
def busRun : List Nat → List BusOp → List (Nat × ScanEvent)
  | _, [] => []
  | reg, BusOp.subscribe h :: ops => busRun (reg ++ [h]) ops
  | reg, BusOp.unsubscribe h :: ops => busRun (reg.filter (· != h)) ops
  | reg, BusOp.emit e :: ops => reg.map (fun h => (h, e)) ++ busRun reg ops

/-- The listener registry after running a sequence of bus operations. -/
def regAfter : List Nat → List BusOp → List Nat
  | reg, [] => reg
  | reg, BusOp.subscribe h :: ops => regAfter (reg ++ [h]) ops
  | reg, BusOp.unsubscribe h :: ops => regAfter (reg.filter (· != h)) ops
  | reg, BusOp.emit _ :: ops => regAfter reg ops

/-- Modelled from the spec: the host-side Scanner with its allowed-paths
policy (spec §4.1, §6, §7) is not part of the source fragment — the mock's
`updateAllowedPaths` is `() => Promise.resolve()` and its
`streamDirectoryFiles` ignores the path.  `startScan` checks the path against
the allowed set: when allowed it emits the directory's contents in
implementation-defined chunks of `batchSize` followed by a completion whose
total is the true entry count; when disallowed the only event is a terminal
`scan-error` carrying `AccessDenied`. -/
def startScan (allowedPaths : List String) (directoryId path : String)
    (contents : List FileEntry) (batchSize : Nat) : List ScanEvent :=
  if path ∈ allowedPaths then
    (List.toChunks batchSize contents).map (ScanEvent.batch directoryId)
      ++ [ScanEvent.complete directoryId contents.length]
  else
    [ScanEvent.scanError directoryId "AccessDenied"]

/-- An observable action of a hotkey verification script: a browser/UI step
(navigation, key press, assertion), a screenshot, a console print, or closing
the browser. -/
inductive Effect where
  | uiStep (desc : String)
  | screenshot (path : String)
  | printed (msg : String)
  | closeBrowser
deriving Repr, DecidableEq

/-- The `try/except/finally` control flow shared by both hotkey scripts:
the body steps run in order until one raises (`failAt`, when it points inside
the body); on an exception the `except`-block effects run; the `finally`
effects always run last.  The boolean records whether an exception escapes
the script — the `except Exception` clause swallows it, so it is always
`false`. -/
def runScript (body handlerFx finalFx : List Effect) (failAt : Option Nat) :
    List Effect × Bool :=
  match failAt with
  | none => (body ++ finalFx, false)
  | some k =>
    if k < body.length then (body.take k ++ handlerFx ++ finalFx, false)
    else (body ++ finalFx, false)

/-- The `try`-body of `run_verification` in verify_hotkeys.py (lines 8-38),
one entry per statement. -/
def hotkeysBody : List Effect :=
  [.uiStep "goto localhost:5173",
   .uiStep "evaluate localStorage.clear",
   .uiStep "reload",
   .uiStep "expect Select Image Folder visible",
   .uiStep "press F1",
   .uiStep "expect Keyboard Shortcuts heading visible",
   .screenshot "jules-scratch/verification/hotkey_help_modal.png",
   .printed "Hotkey Help modal opened successfully.",
   .uiStep "press Escape",
   .uiStep "expect Keyboard Shortcuts heading not visible",
   .printed "Hotkey Help modal closed successfully.",
   .uiStep "press Control+K",
   .uiStep "expect command palette input visible",
   .screenshot "jules-scratch/verification/command_palette.png",
   .printed "Command Palette opened successfully.",
   .uiStep "press Escape",
   .uiStep "expect command palette input not visible",
   .printed "Command Palette closed successfully."]

/-- The `run_verification` function of verify_hotkeys.py: its `try`-body,
an `except`-block that prints the error and captures error.png, and a
`finally`-block that closes the browser.  The printed message interpolates
the exception text; only its fixed prefix is modelled. -/
def run_verification (failAt : Option Nat) : List Effect × Bool :=
  runScript hotkeysBody
    [Effect.printed "An error occurred",
     Effect.screenshot "jules-scratch/verification/error.png"]
    [Effect.closeBrowser] failAt

/-- The `try`-body of `run` in verify_hotkeys_fix.py (lines 8-21), one entry
per statement. -/
def hotkeysFixBody : List Effect :=
  [.uiStep "goto localhost:5173",
   .uiStep "expect header visible",
   .uiStep "press F1",
   .uiStep "expect hotkey-help-modal visible",
   .screenshot "jules-scratch/verification/hotkey-help-visible.png"]

/-- The `run` function of verify_hotkeys_fix.py: its `try`-body, an
`except`-block that prints the error and captures error-hotkey-fix.png, and a
`finally`-block that closes the browser. -/
def run (failAt : Option Nat) : List Effect × Bool :=
  runScript hotkeysFixBody
    [Effect.printed "An error occurred",
     Effect.screenshot "jules-scratch/verification/error-hotkey-fix.png"]
    [Effect.closeBrowser] failAt

/-! Helper lemmas, shared by the claim theorems below. -/

/-- Running the bus over a concatenation splits into the run over the first
part followed by the run over the second part from the updated registry. -/
theorem busRun_append (a : List BusOp) (reg : List Nat) (b : List BusOp) :
    busRun reg (a ++ b) = busRun reg a ++ busRun (regAfter reg a) b := by
  induction a generalizing reg with
  | nil => simp [busRun, regAfter]
  | cons op ops ih =>
    cases op <;> simp [busRun, regAfter, ih, List.append_assoc]

/-- A handle that is not registered and never subscribed during an operation
sequence receives no delivery from that sequence. -/
theorem busRun_no_delivery (ops : List BusOp) (reg : List Nat) (h : Nat)
    (hreg : h ∉ reg) (hops : BusOp.subscribe h ∉ ops) (e : ScanEvent) :
    (h, e) ∉ busRun reg ops := by
  induction ops generalizing reg with
  | nil => simp [busRun]
  | cons op ops ih =>
    cases op with
    | subscribe g =>
      have hg : g ≠ h := by
        rintro rfl
        exact hops (List.mem_cons_self _ _)
      have hsub : h ∉ reg ++ [g] := by
        simp [List.mem_append, hreg]
        exact fun hh => hg hh.symm
      exact ih _ hsub (fun hm => hops (List.mem_cons_of_mem _ hm))
    | unsubscribe g =>
      have hsub : h ∉ reg.filter (· != g) :=
        fun hm => hreg (List.mem_of_mem_filter hm)
      exact ih _ hsub (fun hm => hops (List.mem_cons_of_mem _ hm))
    | emit ev =>
      simp only [busRun, List.mem_append, List.mem_map]
      rintro (⟨x, hx, hxe⟩ | hm)
      · exact hreg (by cases hxe; exact hx)
      · exact ih _ hreg (fun hmm => hops (List.mem_cons_of_mem _ hmm)) hm

/-- The subscribe/unsubscribe contract of a single handle registry:
subscribing registers the handle, unsubscribing is idempotent, the
unsubscribed handle is no longer delivered to, and any other handle's
registration is unaffected. -/
theorem registry_contract (reg : List Nat) (h g : Nat) (hg : g ≠ h) :
    h ∈ reg ++ [h] ∧
    (reg.filter (· != h)).filter (· != h) = reg.filter (· != h) ∧
    h ∉ reg.filter (· != h) ∧
    (g ∈ reg.filter (· != h) ↔ g ∈ reg) := by
  refine ⟨by simp, by simp [List.filter_filter], by simp, by simp [hg]⟩

/-- Under the given `try/except/finally` structure with a closing
`finally`-block, every run's trace ends in `closeBrowser` and no exception
escapes. -/
theorem runScript_closes (body handlerFx : List Effect) (f : Option Nat) :
    (runScript body handlerFx [Effect.closeBrowser] f).1.getLast? =
      some Effect.closeBrowser ∧
    (runScript body handlerFx [Effect.closeBrowser] f).2 = false := by
  cases f with
  | none => simp [runScript, List.getLast?_concat]
  | some k =>
    by_cases hk : k < body.length <;>
      simp [runScript, hk, List.getLast?_concat]

/-- The trace of a run whose body fails at step `k`: the completed body
steps, then the `except`-block effects (when `k` really is inside the body),
then the `finally`-block effects. -/
theorem runScript_failure_trace (body handlerFx finalFx : List Effect)
    (k : Nat) :
    (runScript body handlerFx finalFx (some k)).1 =
      body.take k ++ (if k < body.length then handlerFx else []) ++ finalFx := by
  by_cases hk : k < body.length
  · simp [runScript, hk]
  · simp [runScript, hk, List.take_of_length_le (Nat.le_of_not_lt hk)]

/-! The claims. -/

/-- Claim C1: for the mocked scan of any directoryId, the completion event's
`total` equals the sum of the lengths of the `files` sequences of all
delivered batch events — concretely, two batches of 50 entries and a
completion with total 100. -/
theorem scan_completion_total_eq_batch_sum (dirId : String)
    (ts1 ts2 : Nat → Nat) :
    (scanTrace dirId ts1 ts2).filterMap completionTotal =
      [(((scanTrace dirId ts1 ts2).filter isBatch).map batchCount).sum] ∧
    ((scanTrace dirId ts1 ts2).filter isBatch).map batchCount = [50, 50] ∧
    (scanTrace dirId ts1 ts2).filterMap completionTotal = [100] := by
  refine ⟨?_, ?_, ?_⟩ <;> rfl

/-- Claim C2: for the mocked scan of any directoryId, exactly one terminal
event is delivered, it follows every batch event (the trace is a run of
batches followed by the single terminal event, so nothing follows the
terminal event), and every delivered event carries that directoryId. -/
theorem scan_single_terminal_after_batches (dirId : String)
    (ts1 ts2 : Nat → Nat) :
    (scanTrace dirId ts1 ts2).countP isTerminal = 1 ∧
    (scanTrace dirId ts1 ts2).dropWhile isBatch =
      [ScanEvent.complete dirId 100] ∧
    (scanTrace dirId ts1 ts2).map eventDirectoryId = [dirId, dirId, dirId] := by
  refine ⟨?_, ?_, ?_⟩ <;> rfl

/-- Claim C3: running the consumer over the mocked trace, the accumulated
count reads 50 after batch A, 100 after batch B, and remains 100 (not
double-counted) after the completion event, which drives the consumer to the
`Loaded` state with total 100. -/
theorem progressive_accumulation_counts (dirId : String)
    (ts1 ts2 : Nat → Nat) :
    accCount (consumerRun ((scanTrace dirId ts1 ts2).take 1)) = 50 ∧
    accCount (consumerRun ((scanTrace dirId ts1 ts2).take 2)) = 100 ∧
    accCount (consumerRun (scanTrace dirId ts1 ts2)) = 100 ∧
    consumerRun (scanTrace dirId ts1 ts2) =
      ConsumerState.loaded (mockFiles 1 50 ts1 ++ mockFiles 51 50 ts2) 100 := by
  refine ⟨?_, ?_, ?_, ?_⟩ <;> rfl

/-- Claim C6: the mocked `streamDirectoryFiles` resolves `{ success: true }`
immediately, with every result event scheduled asynchronously at a strictly
positive `setTimeout` delay (100, 300, 500), every scheduled event carrying
the accepted directoryId, and exactly one terminal event among them. -/
theorem startScan_nonblocking_async_results (dirId : String)
    (ts1 ts2 : Nat → Nat) :
    (streamDirectoryFiles dirId ts1 ts2).2 = true ∧
    (streamDirectoryFiles dirId ts1 ts2).1.map Prod.fst = [100, 300, 500] ∧
    (streamDirectoryFiles dirId ts1 ts2).1.map
      (fun de => eventDirectoryId de.2) = [dirId, dirId, dirId] ∧
    (streamDirectoryFiles dirId ts1 ts2).1.countP
      (fun de => isTerminal de.2) = 1 := by
  refine ⟨?_, ?_, ?_, ?_⟩ <;> rfl

/-- Claim C9: the mocked `streamDirectoryFiles` is input-independent — any
two calls resolve `{ success: true }` and produce schedules that agree after
erasing the echoed directoryId and the `lastModified` timestamps; the output
is exactly two batches of 50 files named file1.png through file100.png in
ascending order followed by one completion with total 100, all tagged with
the echoed directoryId. -/
theorem mock_stream_input_independent (id1 id2 : String)
    (ts1 ts2 us1 us2 : Nat → Nat) :
    (streamDirectoryFiles id1 ts1 ts2).2 = true ∧
    (streamDirectoryFiles id1 ts1 ts2).1.map
        (fun de => (de.1, eraseVariation de.2)) =
      (streamDirectoryFiles id2 us1 us2).1.map
        (fun de => (de.1, eraseVariation de.2)) ∧
    ((scanTrace id1 ts1 ts2).filter isBatch).map batchCount = [50, 50] ∧
    ((scanTrace id1 ts1 ts2).map batchNames).flatten =
      (List.range 100).map (fun i => "file" ++ toString (i + 1) ++ ".png") ∧
    (scanTrace id1 ts1 ts2).filter isTerminal =
      [ScanEvent.complete id1 100] ∧
    (scanTrace id1 ts1 ts2).map eventDirectoryId = [id1, id1, id1] := by
  refine ⟨?_, ?_, ?_, ?_, ?_, ?_⟩ <;> rfl

/-- Claim C4: for each of the three subscription channels (batches,
completion, errors), subscribing registers the handle for delivery,
unsubscribing is idempotent (a second call is a no-op on a total function, so
it never throws), the unsubscribed handle receives no further events from the
very next dispatch on, and any distinct registered handle continues to
receive them. -/
theorem subscription_unsubscribe_contract (d : Dispatcher) (h g : Nat)
    (hg : g ≠ h) :
    (h ∈ dispatchBatchTo (subscribeToBatches d h) ∧
      unsubscribeBatches (unsubscribeBatches d h) h = unsubscribeBatches d h ∧
      h ∉ dispatchBatchTo (unsubscribeBatches d h) ∧
      (g ∈ dispatchBatchTo (unsubscribeBatches d h) ↔
        g ∈ dispatchBatchTo d)) ∧
    (h ∈ dispatchCompletionTo (subscribeToCompletion d h) ∧
      unsubscribeCompletion (unsubscribeCompletion d h) h =
        unsubscribeCompletion d h ∧
      h ∉ dispatchCompletionTo (unsubscribeCompletion d h) ∧
      (g ∈ dispatchCompletionTo (unsubscribeCompletion d h) ↔
        g ∈ dispatchCompletionTo d)) ∧
    (h ∈ dispatchErrorTo (subscribeToErrors d h) ∧
      unsubscribeErrors (unsubscribeErrors d h) h = unsubscribeErrors d h ∧
      h ∉ dispatchErrorTo (unsubscribeErrors d h) ∧
      (g ∈ dispatchErrorTo (unsubscribeErrors d h) ↔
        g ∈ dispatchErrorTo d)) := by
  obtain ⟨hb1, hb2, hb3, hb4⟩ := registry_contract d.batchSubs h g hg
  obtain ⟨hc1, hc2, hc3, hc4⟩ := registry_contract d.completionSubs h g hg
  obtain ⟨he1, he2, he3, he4⟩ := registry_contract d.errorSubs h g hg
  refine ⟨⟨hb1, ?_, hb3, hb4⟩, ⟨hc1, ?_, hc3, hc4⟩, ⟨he1, ?_, he3, he4⟩⟩ <;>
    simp [unsubscribeBatches, unsubscribeCompletion, unsubscribeErrors,
      hb2, hc2, he2]

/-- Witness for claim C4 at a concrete dispatcher with handles 1 and 2
registered on every channel, unsubscribing 1 while 2 stays subscribed. -/
theorem subscription_unsubscribe_contract_witness :
    ((2 : Nat) ≠ 1) ∧
    ((1 ∈ dispatchBatchTo (subscribeToBatches ⟨[1, 2], [1, 2], [1, 2]⟩ 1) ∧
      unsubscribeBatches (unsubscribeBatches ⟨[1, 2], [1, 2], [1, 2]⟩ 1) 1 =
        unsubscribeBatches ⟨[1, 2], [1, 2], [1, 2]⟩ 1 ∧
      1 ∉ dispatchBatchTo (unsubscribeBatches ⟨[1, 2], [1, 2], [1, 2]⟩ 1) ∧
      (2 ∈ dispatchBatchTo (unsubscribeBatches ⟨[1, 2], [1, 2], [1, 2]⟩ 1) ↔
        2 ∈ dispatchBatchTo ⟨[1, 2], [1, 2], [1, 2]⟩)) ∧
    (1 ∈ dispatchCompletionTo
        (subscribeToCompletion ⟨[1, 2], [1, 2], [1, 2]⟩ 1) ∧
      unsubscribeCompletion
          (unsubscribeCompletion ⟨[1, 2], [1, 2], [1, 2]⟩ 1) 1 =
        unsubscribeCompletion ⟨[1, 2], [1, 2], [1, 2]⟩ 1 ∧
      1 ∉ dispatchCompletionTo
        (unsubscribeCompletion ⟨[1, 2], [1, 2], [1, 2]⟩ 1) ∧
      (2 ∈ dispatchCompletionTo
          (unsubscribeCompletion ⟨[1, 2], [1, 2], [1, 2]⟩ 1) ↔
        2 ∈ dispatchCompletionTo ⟨[1, 2], [1, 2], [1, 2]⟩)) ∧
    (1 ∈ dispatchErrorTo (subscribeToErrors ⟨[1, 2], [1, 2], [1, 2]⟩ 1) ∧
      unsubscribeErrors (unsubscribeErrors ⟨[1, 2], [1, 2], [1, 2]⟩ 1) 1 =
        unsubscribeErrors ⟨[1, 2], [1, 2], [1, 2]⟩ 1 ∧
      1 ∉ dispatchErrorTo (unsubscribeErrors ⟨[1, 2], [1, 2], [1, 2]⟩ 1) ∧
      (2 ∈ dispatchErrorTo (unsubscribeErrors ⟨[1, 2], [1, 2], [1, 2]⟩ 1) ↔
        2 ∈ dispatchErrorTo ⟨[1, 2], [1, 2], [1, 2]⟩))) :=
  ⟨by decide,
    subscription_unsubscribe_contract ⟨[1, 2], [1, 2], [1, 2]⟩ 1 2 (by decide)⟩

/-- Claim C5: a scan request on a path outside the allowed-paths policy
delivers exactly one event, a terminal `scan-error` carrying `AccessDenied`,
and zero batch events. -/
theorem denied_path_single_access_denied_error (allowed : List String)
    (dirId path : String) (contents : List FileEntry) (bs : Nat)
    (hp : path ∉ allowed) :
    startScan allowed dirId path contents bs =
      [ScanEvent.scanError dirId "AccessDenied"] ∧
    (startScan allowed dirId path contents bs).countP isBatch = 0 ∧
    (startScan allowed dirId path contents bs).countP isTerminal = 1 := by
  refine ⟨?_, ?_, ?_⟩ <;> simp [startScan, hp, isBatch, isTerminal]

/-- Witness for claim C5: scanning "/etc" while only "/allowed" is
permitted. -/
theorem denied_path_single_access_denied_error_witness :
    ("/etc" ∉ ["/allowed"]) ∧
    (startScan ["/allowed"] "dir-1" "/etc" [] 50 =
      [ScanEvent.scanError "dir-1" "AccessDenied"] ∧
    (startScan ["/allowed"] "dir-1" "/etc" [] 50).countP isBatch = 0 ∧
    (startScan ["/allowed"] "dir-1" "/etc" [] 50).countP isTerminal = 1) :=
  ⟨by decide,
    denied_path_single_access_denied_error ["/allowed"] "dir-1" "/etc" [] 50
      (by decide)⟩

/-- Claim C7: a subscriber registered after some events were emitted never
receives those events — the run of the bus splits at the subscription point,
deliveries before it go only to handles registered at emission time, and no
delivery to the late handle occurs in the earlier segment (no replay
buffer). -/
theorem late_subscriber_receives_no_prior_events (reg : List Nat)
    (ops1 ops2 : List BusOp) (h : Nat) (e : ScanEvent)
    (hreg : h ∉ reg) (hops : BusOp.subscribe h ∉ ops1) :
    busRun reg (ops1 ++ BusOp.subscribe h :: ops2) =
      busRun reg ops1 ++ busRun (regAfter reg ops1 ++ [h]) ops2 ∧
    (h, e) ∉ busRun reg ops1 := by
  constructor
  · rw [busRun_append]
    rfl
  · exact busRun_no_delivery ops1 reg h hreg hops e

/-- Witness for claim C7: handle 1 subscribes after a completion event was
emitted to an empty registry and does not receive it, while receiving the
event emitted after its subscription. -/
theorem late_subscriber_receives_no_prior_events_witness :
    ((1 : Nat) ∉ ([] : List Nat)) ∧
    (BusOp.subscribe 1 ∉ [BusOp.emit (ScanEvent.complete "d" 0)]) ∧
    (busRun [] ([BusOp.emit (ScanEvent.complete "d" 0)] ++
        BusOp.subscribe 1 :: [BusOp.emit (ScanEvent.complete "d" 1)]) =
      busRun [] [BusOp.emit (ScanEvent.complete "d" 0)] ++
        busRun (regAfter [] [BusOp.emit (ScanEvent.complete "d" 0)] ++ [1])
          [BusOp.emit (ScanEvent.complete "d" 1)] ∧
    (1, ScanEvent.complete "d" 0) ∉
      busRun [] [BusOp.emit (ScanEvent.complete "d" 0)]) :=
  ⟨by decide, by decide,
    late_subscriber_receives_no_prior_events []
      [BusOp.emit (ScanEvent.complete "d" 0)]
      [BusOp.emit (ScanEvent.complete "d" 1)] 1 (ScanEvent.complete "d" 0)
      (by decide) (by decide)⟩

/-- Claim C8: a scan of an empty directory on an allowed path delivers zero
batches followed directly by a completion with total 0, and the consumer
still reaches the `Loaded` terminal state with an accumulated count of 0. -/
theorem empty_directory_reaches_loaded (allowed : List String)
    (dirId path : String) (bs : Nat) (hp : path ∈ allowed) :
    startScan allowed dirId path [] bs = [ScanEvent.complete dirId 0] ∧
    consumerRun (startScan allowed dirId path [] bs) =
      ConsumerState.loaded [] 0 ∧
    accCount (consumerRun (startScan allowed dirId path [] bs)) = 0 := by
  have h1 : startScan allowed dirId path [] bs =
      [ScanEvent.complete dirId 0] := by
    simp [startScan, hp, List.toChunks]
  exact ⟨h1, by rw [h1]; rfl, by rw [h1]; rfl⟩

/-- Witness for claim C8: scanning the allowed empty directory "/pics". -/
theorem empty_directory_reaches_loaded_witness :
    ("/pics" ∈ ["/pics"]) ∧
    (startScan ["/pics"] "dir-2" "/pics" [] 50 =
      [ScanEvent.complete "dir-2" 0] ∧
    consumerRun (startScan ["/pics"] "dir-2" "/pics" [] 50) =
      ConsumerState.loaded [] 0 ∧
    accCount (consumerRun (startScan ["/pics"] "dir-2" "/pics" [] 50)) = 0) :=
  ⟨by decide,
    empty_directory_reaches_loaded ["/pics"] "dir-2" "/pics" 50 (by decide)⟩

/-- Claim C10: in every run of the two hotkey verification scripts — whether
every body step succeeds or step k raises — the trace ends with closing the
browser and no exception escapes; on the exception path the error screenshot
(and the error print) happen between the completed body steps and the close,
instead of the exception propagating. -/
theorem hotkey_scripts_always_close_browser (f1 f2 : Option Nat)
    (k1 k2 : Nat) :
    (run_verification f1).1.getLast? = some Effect.closeBrowser ∧
    (run_verification f1).2 = false ∧
    (run f2).1.getLast? = some Effect.closeBrowser ∧
    (run f2).2 = false ∧
    (run_verification (some k1)).1 =
      hotkeysBody.take k1 ++
        (if k1 < hotkeysBody.length then
          [Effect.printed "An error occurred",
           Effect.screenshot "jules-scratch/verification/error.png"]
        else []) ++ [Effect.closeBrowser] ∧
    (run (some k2)).1 =
      hotkeysFixBody.take k2 ++
        (if k2 < hotkeysFixBody.length then
          [Effect.printed "An error occurred",
           Effect.screenshot "jules-scratch/verification/error-hotkey-fix.png"]
        else []) ++ [Effect.closeBrowser] := by
  obtain ⟨hv1, hv2⟩ := runScript_closes hotkeysBody
    [Effect.printed "An error occurred",
     Effect.screenshot "jules-scratch/verification/error.png"] f1
  obtain ⟨hr1, hr2⟩ := runScript_closes hotkeysFixBody
    [Effect.printed "An error occurred",
     Effect.screenshot "jules-scratch/verification/error-hotkey-fix.png"] f2
  exact ⟨hv1, hv2, hr1, hr2,
    runScript_failure_trace hotkeysBody _ _ k1,
    runScript_failure_trace hotkeysFixBody _ _ k2⟩

end ImageMetaHub
